import Mathlib

/-!
# netchan: certificate provisioning (`security.go`) and the message frame codec

A shallow embedding of `generateSelfSignedCert` and `generateTLSConfig`.

The two functions are straight-line Go code over the standard library
(`crypto/ecdsa`, `crypto/rand`, `crypto/x509`, `encoding/pem`, `crypto/tls`,
`time`).  The library is not part of the repository, so every library call is
an oracle of a `World`; the embedding records, in program order, every library
call it makes (`Call`), so that statements about which calls happen, with which
arguments and in which order, can be made about the functions themselves.

Go values that may be `nil` are `Option`s: a `[]byte` result is a `ByteSlice`,
an `error` is an `Option GoError`, a `*tls.Config` is an `Option TlsConfig`.
-/

namespace Netchan

/-! ## Go data -/

/-- One octet. -/
abbrev Byte := Fin 256

/-- The contents of a byte slice or of a Go string. -/
abbrev Bytes := List Byte

/-- A Go `[]byte` value; `none` is the `nil` slice. -/
abbrev ByteSlice := Option Bytes

/-- A non-nil Go `error` value: the dynamic type of the interface value and the
text its `Error()` method returns. -/
structure GoError where
  dynType : String
  text : String
deriving DecidableEq, Repr

/-- The curves of `crypto/elliptic`. -/
inductive Curve where
  | P224
  | P256
  | P384
  | P521
deriving DecidableEq, Repr

/-- An `ecdsa.PublicKey`. -/
structure PublicKey where
  curve : Curve
  x : Int
  y : Int
deriving DecidableEq, Repr

/-- An `ecdsa.PrivateKey`: the embedded `PublicKey` and the secret scalar `D`. -/
structure PrivateKey where
  publicKey : PublicKey
  d : Int
deriving DecidableEq, Repr

/-! ## `time` -/

/-- A `time.Time`, as an instant counted in nanoseconds. -/
structure Time where
  nanos : Int
deriving DecidableEq, Repr

/-- The largest `int64`. -/
def maxInt64 : Int := 2 ^ 63 - 1

/-- Reduction of an integer to the signed 64-bit value with the same low 64
bits (two's complement). -/
def wrapInt64 (x : Int) : Int := (x + 2 ^ 63) % 2 ^ 64 - 2 ^ 63

/-- The constant `time.Nanosecond`. -/
def Nanosecond : Int := 1

/-- The constant `time.Microsecond`. -/
def Microsecond : Int := 1000 * Nanosecond

/-- The constant `time.Millisecond`. -/
def Millisecond : Int := 1000 * Microsecond

/-- The constant `time.Second`. -/
def Second : Int := 1000 * Millisecond

/-- The constant `time.Minute`. -/
def Minute : Int := 60 * Second

/-- The constant `time.Hour`, in nanoseconds. -/
def Hour : Int := 60 * Minute

/-- The method `Time.Add` for a duration of `d` nanoseconds. -/
def Time.add (t : Time) (d : Int) : Time := ⟨t.nanos + d⟩

/-- The exact value of the constant expression `1000 * 365 * 24 * time.Hour`
of `security.go` line 25 (Go evaluates constant expressions exactly). -/
def certValidityConst : Int := 1000 * 365 * 24 * Hour

/-- The same expression as a `time.Duration`, a signed 64-bit count of
nanoseconds: the low 64 bits of the exact value. -/
def certValidity : Int := wrapInt64 certValidityConst

/-! ## `math/big` -/

/-- The method `(*big.Int).Lsh`: `x << n`. -/
def bigLsh (x : Int) (n : Nat) : Int := x <<< (n : Int)

/-! ## `crypto/x509`, `encoding/pem`, `crypto/tls` -/

/-- The constant `x509.KeyUsageDigitalSignature` (`1 << iota`, first of the list). -/
def KeyUsageDigitalSignature : Nat := 1 <<< 0

/-- The constant `x509.KeyUsageContentCommitment`. -/
def KeyUsageContentCommitment : Nat := 1 <<< 1

/-- The constant `x509.KeyUsageKeyEncipherment`. -/
def KeyUsageKeyEncipherment : Nat := 1 <<< 2

/-- The constant `x509.KeyUsageDataEncipherment`. -/
def KeyUsageDataEncipherment : Nat := 1 <<< 3

/-- The constant `x509.KeyUsageKeyAgreement`. -/
def KeyUsageKeyAgreement : Nat := 1 <<< 4

/-- The constant `x509.KeyUsageCertSign`. -/
def KeyUsageCertSign : Nat := 1 <<< 5

/-- The constant `x509.KeyUsageCRLSign`. -/
def KeyUsageCRLSign : Nat := 1 <<< 6

/-- The constant `x509.KeyUsageEncipherOnly`. -/
def KeyUsageEncipherOnly : Nat := 1 <<< 7

/-- The constant `x509.KeyUsageDecipherOnly`. -/
def KeyUsageDecipherOnly : Nat := 1 <<< 8

/-- The values of `x509.ExtKeyUsage` (an `iota` enumeration that starts with
`ExtKeyUsageAny`). -/
inductive ExtKeyUsage where
  | any
  | serverAuth
  | clientAuth
  | codeSigning
  | emailProtection
  | ipsecEndSystem
  | ipsecTunnel
  | ipsecUser
  | timeStamping
  | ocspSigning
deriving DecidableEq, Repr

/-- A `pkix.Name`; the code sets `Organization` only. -/
structure Name where
  organization : List String
deriving DecidableEq, Repr

/-- The fields of `x509.Certificate` that the template of `security.go` sets. -/
structure Certificate where
  serialNumber : Int
  subject : Name
  notBefore : Time
  notAfter : Time
  keyUsage : Nat
  extKeyUsage : List ExtKeyUsage
  basicConstraintsValid : Bool
  isCA : Bool
deriving DecidableEq, Repr

/-- A `pem.Block`. -/
structure PemBlock where
  type : String
  headers : List (String × String)
  bytes : Bytes
deriving DecidableEq, Repr

/-- A `tls.Certificate`: the DER chain and the private key. -/
structure TlsCertificate where
  certificate : List Bytes
  privateKey : PrivateKey
deriving DecidableEq, Repr

/-- The constant `tls.VersionSSL30`. -/
def VersionSSL30 : Nat := 0x0300

/-- The constant `tls.VersionTLS10`. -/
def VersionTLS10 : Nat := 0x0301

/-- The constant `tls.VersionTLS11`. -/
def VersionTLS11 : Nat := 0x0302

/-- The constant `tls.VersionTLS12`. -/
def VersionTLS12 : Nat := 0x0303

/-- The constant `tls.VersionTLS13`. -/
def VersionTLS13 : Nat := 0x0304

/-- The protocol versions `crypto/tls` defines. -/
def tlsVersions : List Nat :=
  [VersionSSL30, VersionTLS10, VersionTLS11, VersionTLS12, VersionTLS13]

/-- The constant `tls.NoClientCert`, the zero value of `tls.ClientAuthType`. -/
def NoClientCert : Nat := 0

/-- A value of function or interface type, named by a handle; `none` is `nil`. -/
abbrev Handle := Option Nat

/-- The exported fields of `tls.Config`. -/
structure TlsConfig where
  rand : Handle
  time : Handle
  certificates : List TlsCertificate
  nameToCertificate : List (String × TlsCertificate)
  getCertificate : Handle
  getClientCertificate : Handle
  getConfigForClient : Handle
  verifyPeerCertificate : Handle
  verifyConnection : Handle
  rootCAs : Option (List Bytes)
  nextProtos : List String
  serverName : String
  clientAuth : Nat
  clientCAs : Option (List Bytes)
  insecureSkipVerify : Bool
  cipherSuites : List Nat
  preferServerCipherSuites : Bool
  sessionTicketsDisabled : Bool
  sessionTicketKey : List Byte
  clientSessionCache : Handle
  unwrapSession : Handle
  wrapSession : Handle
  minVersion : Nat
  maxVersion : Nat
  curvePreferences : List Nat
  dynamicRecordSizingDisabled : Bool
  renegotiation : Nat
  keyLogWriter : Handle
deriving DecidableEq, Repr

/-- The zero value of `tls.Config`. -/
def TlsConfig.zero : TlsConfig where
  rand := none
  time := none
  certificates := []
  nameToCertificate := []
  getCertificate := none
  getClientCertificate := none
  getConfigForClient := none
  verifyPeerCertificate := none
  verifyConnection := none
  rootCAs := none
  nextProtos := []
  serverName := ""
  clientAuth := 0
  clientCAs := none
  insecureSkipVerify := false
  cipherSuites := []
  preferServerCipherSuites := false
  sessionTicketsDisabled := false
  sessionTicketKey := List.replicate 32 0
  clientSessionCache := none
  unwrapSession := none
  wrapSession := none
  minVersion := 0
  maxVersion := 0
  curvePreferences := []
  dynamicRecordSizingDisabled := false
  renegotiation := 0
  keyLogWriter := none

/-! ## The library as an oracle -/

/-- What the standard library answers during one run.

* `generateKey c` is `ecdsa.GenerateKey(c, rand.Reader)`.
* `now` is `time.Now()`.
* `randInt max` is `rand.Int(rand.Reader, max)`; its documented contract, a
  value in `[0, max)`, is part of the type.
* `createCertificate template parent pub priv` is
  `x509.CreateCertificate(rand.Reader, &template, &parent, pub, priv)`.
* `marshalECPrivateKey` is `x509.MarshalECPrivateKey`.
* `encodeToMemory` is `pem.EncodeToMemory`, which returns `nil` only for a block
  with an invalid header (`encodeToMemory_noHeaders`).
* `x509KeyPair` is `tls.X509KeyPair`. -/
structure World where
  generateKey : Curve → Except GoError PrivateKey
  now : Time
  randInt : (max : Int) → Except GoError { n : Int // 0 ≤ n ∧ n < max }
  createCertificate :
    Certificate → Certificate → PublicKey → PrivateKey → Except GoError Bytes
  marshalECPrivateKey : PrivateKey → Except GoError Bytes
  encodeToMemory : PemBlock → ByteSlice
  encodeToMemory_noHeaders : ∀ b : PemBlock, b.headers = [] → encodeToMemory b ≠ none
  x509KeyPair : ByteSlice → ByteSlice → Except GoError TlsCertificate

/-- A library call, with its arguments. -/
inductive Call where
  | generateKey (c : Curve)
  | now
  | randInt (max : Int)
  | createCertificate (template parent : Certificate) (pub : PublicKey) (priv : PrivateKey)
  | encodeToMemory (b : PemBlock)
  | marshalECPrivateKey (priv : PrivateKey)
  | x509KeyPair (certPEMBlock keyPEMBlock : ByteSlice)
deriving DecidableEq, Repr

/-- The fallible steps of provisioning. -/
inductive Step where
  | keyGeneration
  | serialNumber
  | certificateCreation
  | keyMarshalling
  | keyPairLoading
deriving DecidableEq, Repr

/-- The fallible step a library call belongs to; `time.Now` and
`pem.EncodeToMemory` return no error. -/
def Call.step : Call → Option Step
  | .generateKey _ => some .keyGeneration
  | .now => none
  | .randInt _ => some .serialNumber
  | .createCertificate _ _ _ _ => some .certificateCreation
  | .encodeToMemory _ => none
  | .marshalECPrivateKey _ => some .keyMarshalling
  | .x509KeyPair _ _ => some .keyPairLoading

/-- The error, if any, with which the library answers a call. -/
def World.errorOf (w : World) : Call → Option GoError
  | .generateKey c =>
    match w.generateKey c with
    | .error e => some e
    | .ok _ => none
  | .now => none
  | .randInt max =>
    match w.randInt max with
    | .error e => some e
    | .ok _ => none
  | .createCertificate t p pub priv =>
    match w.createCertificate t p pub priv with
    | .error e => some e
    | .ok _ => none
  | .encodeToMemory _ => none
  | .marshalECPrivateKey priv =>
    match w.marshalECPrivateKey priv with
    | .error e => some e
    | .ok _ => none
  | .x509KeyPair c k =>
    match w.x509KeyPair c k with
    | .error e => some e
    | .ok _ => none

/-! ## `security.go` -/

/-- The three results of `generateSelfSignedCert`, and the library calls the
run made, in order. -/
structure CertResult where
  certPem : ByteSlice
  keyPem : ByteSlice
  err : Option GoError
  calls : List Call

/-- The composite literal `x509.Certificate{...}` of `security.go` lines 32-43. -/
def certTemplate (serialNumber : Int) (notBefore notAfter : Time) : Certificate where
  serialNumber := serialNumber
  subject := { organization := ["github.com/matveynator/netchan"] }
  notBefore := notBefore
  notAfter := notAfter
  keyUsage := KeyUsageKeyEncipherment ||| KeyUsageDigitalSignature
  extKeyUsage := [ExtKeyUsage.serverAuth]
  basicConstraintsValid := true
  isCA := true

/-- The function `generateSelfSignedCert` of `security.go`. -/
def generateSelfSignedCert (w : World) : CertResult :=
  let log : List Call := [Call.generateKey Curve.P256]
  match w.generateKey Curve.P256 with
  | .error err => ⟨none, none, some err, log⟩
  | .ok priv =>
    let notBefore := w.now
    let log := log ++ [Call.now]
    let notAfter := notBefore.add certValidity
    let max := bigLsh 1 128
    let log := log ++ [Call.randInt max]
    match w.randInt max with
    | .error err => ⟨none, none, some err, log⟩
    | .ok serialNumber =>
      let template := certTemplate serialNumber.val notBefore notAfter
      let log := log ++ [Call.createCertificate template template priv.publicKey priv]
      match w.createCertificate template template priv.publicKey priv with
      | .error err => ⟨none, none, some err, log⟩
      | .ok derBytes =>
        let certBlock : PemBlock := ⟨"CERTIFICATE", [], derBytes⟩
        let certPem := w.encodeToMemory certBlock
        let log := log ++ [Call.encodeToMemory certBlock, Call.marshalECPrivateKey priv]
        match w.marshalECPrivateKey priv with
        | .error err => ⟨none, none, some err, log⟩
        | .ok privBytes =>
          let keyBlock : PemBlock := ⟨"EC PRIVATE KEY", [], privBytes⟩
          let keyPem := w.encodeToMemory keyBlock
          ⟨certPem, keyPem, none, log ++ [Call.encodeToMemory keyBlock]⟩

/-- The two results of `generateTLSConfig`, and the library calls the run made,
in order. -/
structure ConfigResult where
  config : Option TlsConfig
  err : Option GoError
  calls : List Call

/-- The function `generateTLSConfig` of `security.go`. -/
def generateTLSConfig (w : World) : ConfigResult :=
  let r := generateSelfSignedCert w
  match r.err with
  | some err => ⟨none, some err, r.calls⟩
  | none =>
    let log := r.calls ++ [Call.x509KeyPair r.certPem r.keyPem]
    match w.x509KeyPair r.certPem r.keyPem with
    | .error err => ⟨none, some err, log⟩
    | .ok cert =>
      ⟨some { TlsConfig.zero with certificates := [cert], minVersion := VersionTLS13 }, none, log⟩

/-! ## Concrete library behaviours -/

/-- A P-256 key used in the examples. -/
def sampleKey : PrivateKey := ⟨⟨Curve.P256, 3, 4⟩, 7⟩

/-- A library error of type `*errors.errorString`, as `io.ErrUnexpectedEOF` is. -/
def errUnexpectedEOF : GoError := ⟨"*errors.errorString", "unexpected EOF"⟩

/-- A library in which every call succeeds: the clock reads 0, the random
integer is 0, DER and marshalled key are short fixed strings, and PEM encoding
is the identity on the block's bytes. -/
def happyWorld : World where
  generateKey := fun _ => .ok sampleKey
  now := ⟨0⟩
  randInt := fun max =>
    if h : 0 < max then .ok ⟨0, le_refl 0, h⟩ else .error ⟨"panic", "argument to Int is <= 0"⟩
  createCertificate := fun _ _ _ _ => .ok [48, 0]
  marshalECPrivateKey := fun _ => .ok [48, 1]
  encodeToMemory := fun b => some b.bytes
  encodeToMemory_noHeaders := fun _ _ => Option.some_ne_none _
  x509KeyPair := fun c _ => .ok ⟨[c.getD []], sampleKey⟩

/-- A library whose random source is exhausted when the key is generated. -/
def keyGenFailsWorld : World :=
  { happyWorld with generateKey := fun _ => .error errUnexpectedEOF }

/-- The error `tls.X509KeyPair` returns for an input without PEM data. -/
def errNoPemData : GoError :=
  ⟨"*errors.errorString", "tls: failed to find any PEM data in certificate input"⟩

/-- A library in which loading the key pair fails. -/
def keyPairFailsWorld : World :=
  { happyWorld with x509KeyPair := fun _ _ => .error errNoPemData }

/-- The template built when the clock reads 0 and the random integer is 0. -/
def sampleTemplate : Certificate := certTemplate 0 ⟨0⟩ (Time.add ⟨0⟩ certValidity)

/-- The configuration built from the key pair that `happyWorld` loads. -/
def sampleConfig : TlsConfig :=
  { TlsConfig.zero with
    certificates := [⟨[[48, 0]], sampleKey⟩]
    minVersion := VersionTLS13 }

/-! ## Case analysis of `generateSelfSignedCert` -/

/-- The list of fallible steps of `generateSelfSignedCert`, in program order. -/
def provisioningSteps : List Step :=
  [Step.keyGeneration, Step.serialNumber, Step.certificateCreation, Step.keyMarshalling]

/-- The outcomes of a run of `generateSelfSignedCert`, by the first library call
that fails. -/
inductive CertRun (w : World) : CertResult → Prop where
  | keyGenerationFails (e : GoError) (hk : w.generateKey Curve.P256 = .error e) :
    CertRun w ⟨none, none, some e, [Call.generateKey Curve.P256]⟩
  | serialNumberFails (priv : PrivateKey) (e : GoError)
    (hk : w.generateKey Curve.P256 = .ok priv)
    (hs : w.randInt (bigLsh 1 128) = .error e) :
    CertRun w ⟨none, none, some e,
      [Call.generateKey Curve.P256, Call.now, Call.randInt (bigLsh 1 128)]⟩
  | certificateCreationFails (priv : PrivateKey)
    (serial : { n : Int // 0 ≤ n ∧ n < bigLsh 1 128 }) (e : GoError)
    (hk : w.generateKey Curve.P256 = .ok priv)
    (hs : w.randInt (bigLsh 1 128) = .ok serial)
    (hc : w.createCertificate (certTemplate serial.val w.now (w.now.add certValidity))
      (certTemplate serial.val w.now (w.now.add certValidity)) priv.publicKey priv = .error e) :
    CertRun w ⟨none, none, some e,
      [Call.generateKey Curve.P256, Call.now, Call.randInt (bigLsh 1 128),
        Call.createCertificate (certTemplate serial.val w.now (w.now.add certValidity))
          (certTemplate serial.val w.now (w.now.add certValidity)) priv.publicKey priv]⟩
  | keyMarshallingFails (priv : PrivateKey)
    (serial : { n : Int // 0 ≤ n ∧ n < bigLsh 1 128 }) (der : Bytes) (e : GoError)
    (hk : w.generateKey Curve.P256 = .ok priv)
    (hs : w.randInt (bigLsh 1 128) = .ok serial)
    (hc : w.createCertificate (certTemplate serial.val w.now (w.now.add certValidity))
      (certTemplate serial.val w.now (w.now.add certValidity)) priv.publicKey priv = .ok der)
    (hm : w.marshalECPrivateKey priv = .error e) :
    CertRun w ⟨none, none, some e,
      [Call.generateKey Curve.P256, Call.now, Call.randInt (bigLsh 1 128),
        Call.createCertificate (certTemplate serial.val w.now (w.now.add certValidity))
          (certTemplate serial.val w.now (w.now.add certValidity)) priv.publicKey priv,
        Call.encodeToMemory ⟨"CERTIFICATE", [], der⟩, Call.marshalECPrivateKey priv]⟩
  | success (priv : PrivateKey)
    (serial : { n : Int // 0 ≤ n ∧ n < bigLsh 1 128 }) (der privBytes : Bytes)
    (hk : w.generateKey Curve.P256 = .ok priv)
    (hs : w.randInt (bigLsh 1 128) = .ok serial)
    (hc : w.createCertificate (certTemplate serial.val w.now (w.now.add certValidity))
      (certTemplate serial.val w.now (w.now.add certValidity)) priv.publicKey priv = .ok der)
    (hm : w.marshalECPrivateKey priv = .ok privBytes) :
    CertRun w ⟨w.encodeToMemory ⟨"CERTIFICATE", [], der⟩,
      w.encodeToMemory ⟨"EC PRIVATE KEY", [], privBytes⟩, none,
      [Call.generateKey Curve.P256, Call.now, Call.randInt (bigLsh 1 128),
        Call.createCertificate (certTemplate serial.val w.now (w.now.add certValidity))
          (certTemplate serial.val w.now (w.now.add certValidity)) priv.publicKey priv,
        Call.encodeToMemory ⟨"CERTIFICATE", [], der⟩, Call.marshalECPrivateKey priv,
        Call.encodeToMemory ⟨"EC PRIVATE KEY", [], privBytes⟩]⟩

/-! ## The frame codec

The repository's example (`examples/client-client.go`) sends
`netchan.NetChanType` values with the fields `Id`, `Secret` and `Data`; the
code that puts them on the wire is not among the source files.  The codec below
is modelled from the specification's section on the frame codec. -/

/-- The message of the example: `netchan.NetChanType{Id, Secret, Data}`, three
Go strings (the specification's `id`, `secret`, `payload`). -/
structure Message where
  id : Bytes
  secret : Bytes
  payload : Bytes
deriving DecidableEq, Repr

/-- Modelled from the spec: the parameters of the frame codec, which is missing
from the source.  The specification fixes a "length prefix (fixed-width)" and a
maximum declared length (the "size ceiling") without giving their values:
`width` is the number of bytes of a length field and `maxFrame` the largest
declared length accepted, which a length field must be able to hold. -/
structure Codec where
  width : Nat
  maxFrame : Nat
  maxFrame_fits : maxFrame < 256 ^ width

/-- Modelled from the spec: the fixed-width length field of the frame codec,
which is missing from the source: a length written in `width` bytes, most
significant byte first. -/
def encodeLen : Nat → Nat → Bytes
  | 0, _ => []
  | width + 1, n => encodeLen width (n / 256) ++ [⟨n % 256, Nat.mod_lt n (by decide)⟩]

/-- Modelled from the spec: the reading of a length field of the frame codec,
which is missing from the source: the number its bytes hold. -/
def decodeLen (field : Bytes) : Nat :=
  field.foldl (fun acc b => acc * 256 + b.val) 0

/-- Modelled from the spec: the serialization of one message field by the frame
codec, which is missing from the source: the field's length followed by its
bytes. -/
def encodeField (c : Codec) (f : Bytes) : Bytes :=
  encodeLen c.width f.length ++ f

/-- Modelled from the spec: the body of a frame of the frame codec, which is
missing from the source: the "serialized representation of the three Message
fields", in the fixed order `id`, `secret`, `payload`. -/
def encodeBody (c : Codec) (m : Message) : Bytes :=
  encodeField c m.id ++ (encodeField c m.secret ++ encodeField c m.payload)

/-- Modelled from the spec: the function `encode(Message) -> bytes` of the frame
codec, which is missing from the source: "a length prefix (fixed-width)
followed by a serialized representation of the three Message fields". -/
def encode (c : Codec) (m : Message) : Bytes :=
  encodeLen c.width (encodeBody c m).length ++ encodeBody c m

/-- Modelled from the spec: the results of `decode` of the frame codec, which is
missing from the source: a message and the number of bytes consumed,
`NeedMoreData`, or a `ProtocolError`. -/
inductive DecodeResult where
  | message (m : Message) (bytesConsumed : Nat)
  | needMoreData
  | protocolError
deriving DecidableEq, Repr

/-- Modelled from the spec: the reading of one message field by the frame codec,
which is missing from the source: the field at the front of a frame body and
the bytes after it; `none` when the body is too short for it. -/
def decodeField (c : Codec) (body : Bytes) : Option (Bytes × Bytes) :=
  if body.length < c.width then none
  else
    let n := decodeLen (body.take c.width)
    let rest := body.drop c.width
    if rest.length < n then none else some (rest.take n, rest.drop n)

/-- Modelled from the spec: the reading of a frame body by the frame codec, which
is missing from the source: the three fields `id`, `secret`, `payload`, which
must fill the body exactly. -/
def decodeBody (c : Codec) (body : Bytes) : Option Message :=
  match decodeField c body with
  | none => none
  | some (id, afterId) =>
    match decodeField c afterId with
    | none => none
    | some (secret, afterSecret) =>
      match decodeField c afterSecret with
      | none => none
      | some (payload, afterPayload) =>
        if afterPayload = [] then some ⟨id, secret, payload⟩ else none

/-- Modelled from the spec: the function `decode(byteStream) -> (Message,
bytesConsumed)` or `NeedMoreData` of the frame codec, which is missing from the
source: "partial frames are buffered until enough bytes arrive; a frame whose
declared length exceeds a sane maximum is rejected as a ProtocolError", as is a
malformed frame. -/
def decode (c : Codec) (stream : Bytes) : DecodeResult :=
  if stream.length < c.width then DecodeResult.needMoreData
  else
    let n := decodeLen (stream.take c.width)
    if c.maxFrame < n then DecodeResult.protocolError
    else
      let rest := stream.drop c.width
      if rest.length < n then DecodeResult.needMoreData
      else
        match decodeBody c (rest.take n) with
        | some m => DecodeResult.message m (c.width + n)
        | none => DecodeResult.protocolError

/-- A codec with two-byte length fields and a ceiling of 16 bytes. -/
def smallCodec : Codec := ⟨2, 16, by decide⟩

/-- A message with empty `id` and `secret` whose frame body has exactly the
length of the ceiling of `smallCodec`. -/
def fullMessage : Message := ⟨[], [], [72, 69, 76, 76, 79, 72, 69, 76, 76, 79]⟩

/-! # Theorems -/

/-! ## Arithmetic of the constants -/

theorem bigLsh_one_128 : bigLsh 1 128 = 2 ^ 128 := by
  show ((1 : ℕ) : ℤ) <<< ((128 : ℕ) : ℤ) = 2 ^ 128
  rw [Int.shiftLeft_coe_nat, Nat.shiftLeft_eq]
  norm_num

theorem certValidityConst_eq : certValidityConst = 31536000000000000000 := by
  norm_num [certValidityConst, Hour, Minute, Second, Millisecond, Microsecond, Nanosecond]

theorem certValidity_eq : certValidity = -5357488147419103232 := by
  rw [certValidity, certValidityConst_eq]
  norm_num [wrapInt64]


theorem generateSelfSignedCert_run (w : World) : CertRun w (generateSelfSignedCert w) := by
  unfold generateSelfSignedCert
  cases hk : w.generateKey Curve.P256 with
  | error e => exact CertRun.keyGenerationFails e hk
  | ok priv =>
    dsimp only
    cases hs : w.randInt (bigLsh 1 128) with
    | error e => exact CertRun.serialNumberFails priv e hk hs
    | ok serial =>
      dsimp only
      cases hc : w.createCertificate (certTemplate serial.val w.now (w.now.add certValidity))
        (certTemplate serial.val w.now (w.now.add certValidity)) priv.publicKey priv with
      | error e => exact CertRun.certificateCreationFails priv serial e hk hs hc
      | ok der =>
        dsimp only
        cases hm : w.marshalECPrivateKey priv with
        | error e => exact CertRun.keyMarshallingFails priv serial der e hk hs hc hm
        | ok privBytes => exact CertRun.success priv serial der privBytes hk hs hc hm

theorem createCertificate_call (w : World) (t p : Certificate) (pub : PublicKey)
    (priv : PrivateKey)
    (h : Call.createCertificate t p pub priv ∈ (generateSelfSignedCert w).calls) :
    ∃ serial, w.generateKey Curve.P256 = .ok priv ∧
      w.randInt (bigLsh 1 128) = .ok serial ∧
      t = certTemplate serial.val w.now (w.now.add certValidity) ∧
      p = t ∧ pub = priv.publicKey := by
  have hr := generateSelfSignedCert_run w
  generalize generateSelfSignedCert w = r at hr h
  cases hr with
  | keyGenerationFails e hk => simp at h
  | serialNumberFails priv0 e hk hs => simp at h
  | certificateCreationFails priv0 serial e hk hs hc =>
    simp at h
    obtain ⟨rfl, rfl, rfl, rfl⟩ := h
    exact ⟨serial, hk, hs, rfl, rfl, rfl⟩
  | keyMarshallingFails priv0 serial der e hk hs hc hm =>
    simp at h
    obtain ⟨rfl, rfl, rfl, rfl⟩ := h
    exact ⟨serial, hk, hs, rfl, rfl, rfl⟩
  | success priv0 serial der privBytes hk hs hc hm =>
    simp at h
    obtain ⟨rfl, rfl, rfl, rfl⟩ := h
    exact ⟨serial, hk, hs, rfl, rfl, rfl⟩

/-- C1 (evaluation of the code): the constant `1000 * 365 * 24 * time.Hour` is
8,760,000 hours, that is 31,536,000,000,000,000,000 ns, which is more than the
largest `int64`, so it is no `time.Duration`; its low 64 bits read as a signed
number are -5,357,488,147,419,103,232 ns, and with that duration every template
that reaches certificate creation has `NotBefore = now`, `NotAfter = now + D`
and `NotAfter` strictly earlier than `NotBefore`. -/
theorem certValidity_overflows_int64 :
    certValidityConst = 8760000 * Hour ∧
    certValidityConst = 31536000000000000000 ∧
    maxInt64 < certValidityConst ∧
    certValidity = -5357488147419103232 ∧
    ∀ (w : World) (t p : Certificate) (pub : PublicKey) (priv : PrivateKey),
      Call.createCertificate t p pub priv ∈ (generateSelfSignedCert w).calls →
      t.notBefore = w.now ∧ t.notAfter = w.now.add certValidity ∧
      t.notAfter.nanos < t.notBefore.nanos := by
  refine ⟨?_, certValidityConst_eq, ?_, certValidity_eq, ?_⟩
  · norm_num [certValidityConst]
  · rw [certValidityConst_eq]
    norm_num [maxInt64]
  · intro w t p pub priv h
    obtain ⟨serial, -, -, rfl, -, -⟩ := createCertificate_call w t p pub priv h
    refine ⟨rfl, rfl, ?_⟩
    simp only [certTemplate, Time.add, certValidity_eq]
    omega

/-- C3: the template of every run of `generateSelfSignedCert` that reaches
certificate creation has KeyUsage equal to digital signature or-ed with key
encipherment, with no other usage bit set, ExtKeyUsage equal to the one-element
list of server authentication, and IsCA and BasicConstraintsValid both true. -/
theorem template_usage (w : World) (t p : Certificate) (pub : PublicKey) (priv : PrivateKey)
    (h : Call.createCertificate t p pub priv ∈ (generateSelfSignedCert w).calls) :
    t.keyUsage = KeyUsageDigitalSignature ||| KeyUsageKeyEncipherment ∧
    (∀ u ∈ [KeyUsageContentCommitment, KeyUsageDataEncipherment, KeyUsageKeyAgreement,
        KeyUsageCertSign, KeyUsageCRLSign, KeyUsageEncipherOnly, KeyUsageDecipherOnly],
      t.keyUsage &&& u = 0) ∧
    (∀ i, t.keyUsage.testBit i = true ↔ i = 0 ∨ i = 2) ∧
    t.extKeyUsage = [ExtKeyUsage.serverAuth] ∧
    t.isCA = true ∧ t.basicConstraintsValid = true := by
  obtain ⟨serial, -, -, rfl, -, -⟩ := createCertificate_call w t p pub priv h
  have h5 : KeyUsageKeyEncipherment ||| KeyUsageDigitalSignature = 5 := by decide
  refine ⟨?_, ?_, ?_, rfl, rfl, rfl⟩
  · show KeyUsageKeyEncipherment ||| KeyUsageDigitalSignature = _
    decide
  · show ∀ u ∈ _, (KeyUsageKeyEncipherment ||| KeyUsageDigitalSignature) &&& u = 0
    decide
  intro i
  simp only [certTemplate, h5]
  constructor
  · intro hi
    by_contra hne
    push_neg at hne
    have h3 : 3 ≤ i ∨ i = 1 := by omega
    rcases h3 with h3 | rfl
    · have : (5 : Nat) < 2 ^ i :=
        lt_of_lt_of_le (by norm_num) (Nat.pow_le_pow_right (by norm_num) h3)
      rw [Nat.testBit_lt_two_pow this] at hi
      exact Bool.false_ne_true hi
    · revert hi
      decide
  · rintro (rfl | rfl) <;> decide

/-- Witness of C3: in the library where every call succeeds, the call of
certificate creation is in the log and its template has the stated usage. -/
theorem template_usage_witness :
    Call.createCertificate sampleTemplate sampleTemplate sampleKey.publicKey sampleKey
      ∈ (generateSelfSignedCert happyWorld).calls ∧
    sampleTemplate.keyUsage = 5 ∧
    sampleTemplate.isCA = true :=
  ⟨by set_option maxRecDepth 8000 in decide,
    (template_usage happyWorld sampleTemplate sampleTemplate sampleKey.publicKey sampleKey (by set_option maxRecDepth 8000 in decide)).1,
    (template_usage happyWorld sampleTemplate sampleTemplate sampleKey.publicKey sampleKey (by set_option maxRecDepth 8000 in decide)).2.2.2.2.1⟩

/-- C4: the serial number of every template that reaches certificate creation is
the outcome `n` of `rand.Int` called with the bound `1 << 128`, which is `2^128`,
and `0 ≤ n < 2^128`. -/
theorem serialNumber_range (w : World) (t p : Certificate) (pub : PublicKey)
    (priv : PrivateKey)
    (h : Call.createCertificate t p pub priv ∈ (generateSelfSignedCert w).calls) :
    0 ≤ t.serialNumber ∧ t.serialNumber < 2 ^ 128 ∧
    bigLsh 1 128 = 2 ^ 128 ∧
    Call.randInt (bigLsh 1 128) ∈ (generateSelfSignedCert w).calls ∧
    ∃ n, w.randInt (bigLsh 1 128) = .ok n ∧ t.serialNumber = n.val := by
  obtain ⟨serial, hk, hs, rfl, -, -⟩ := createCertificate_call w t p pub priv h
  have hlt : serial.val < 2 ^ 128 := lt_of_lt_of_eq serial.property.2 bigLsh_one_128
  refine ⟨serial.property.1, hlt, bigLsh_one_128, ?_, serial, hs, rfl⟩
  have hr := generateSelfSignedCert_run w
  generalize generateSelfSignedCert w = r at hr
  cases hr <;> simp_all

/-- Witness of C4: in the library where every call succeeds the serial number is 0. -/
theorem serialNumber_range_witness :
    Call.createCertificate sampleTemplate sampleTemplate sampleKey.publicKey sampleKey
      ∈ (generateSelfSignedCert happyWorld).calls ∧
    (0 : Int) ≤ sampleTemplate.serialNumber ∧
    sampleTemplate.serialNumber < 2 ^ 128 :=
  ⟨by set_option maxRecDepth 8000 in decide,
    (serialNumber_range happyWorld sampleTemplate sampleTemplate sampleKey.publicKey sampleKey (by set_option maxRecDepth 8000 in decide)).1,
    (serialNumber_range happyWorld sampleTemplate sampleTemplate sampleKey.publicKey sampleKey (by set_option maxRecDepth 8000 in decide)).2.1⟩

/-! ## `generateSelfSignedCert`: what is returned -/

/-- C5: when `generateSelfSignedCert` succeeds, the key `priv` came from
`ecdsa.GenerateKey` on P-256, the one call of certificate creation has the same
template as subject and issuer, `priv.PublicKey` as the certified key and `priv`
as the signing key, `certPem` is the PEM block of type CERTIFICATE over the DER
bytes of that call, and `keyPem` is the PEM block of type EC PRIVATE KEY over
the marshalling of `priv`. -/
theorem selfSigned_matching_pair (w : World) (h : (generateSelfSignedCert w).err = none) :
    ∃ (priv : PrivateKey) (template : Certificate) (der privBytes : Bytes),
      Call.generateKey Curve.P256 ∈ (generateSelfSignedCert w).calls ∧
      w.generateKey Curve.P256 = .ok priv ∧
      Call.createCertificate template template priv.publicKey priv
        ∈ (generateSelfSignedCert w).calls ∧
      (∀ t p pub k, Call.createCertificate t p pub k ∈ (generateSelfSignedCert w).calls →
        t = template ∧ p = template ∧ pub = priv.publicKey ∧ k = priv) ∧
      w.createCertificate template template priv.publicKey priv = .ok der ∧
      w.marshalECPrivateKey priv = .ok privBytes ∧
      (generateSelfSignedCert w).certPem = w.encodeToMemory ⟨"CERTIFICATE", [], der⟩ ∧
      (generateSelfSignedCert w).keyPem = w.encodeToMemory ⟨"EC PRIVATE KEY", [], privBytes⟩ := by
  have hr := generateSelfSignedCert_run w
  generalize generateSelfSignedCert w = r at hr h
  cases hr with
  | keyGenerationFails e hk => simp at h
  | serialNumberFails priv e hk hs => simp at h
  | certificateCreationFails priv serial e hk hs hc => simp at h
  | keyMarshallingFails priv serial der e hk hs hc hm => simp at h
  | success priv serial der privBytes hk hs hc hm =>
    refine ⟨priv, certTemplate serial.val w.now (w.now.add certValidity), der, privBytes,
      by simp, hk, by simp, ?_, hc, hm, rfl, rfl⟩
    intro t p pub k hmem
    simp at hmem
    obtain ⟨rfl, rfl, rfl, rfl⟩ := hmem
    exact ⟨rfl, rfl, rfl, rfl⟩

/-- Witness of C5: the library where every call succeeds. -/
theorem selfSigned_matching_pair_witness :
    (generateSelfSignedCert happyWorld).err = none ∧
    ∃ (priv : PrivateKey) (template : Certificate) (der privBytes : Bytes),
      Call.generateKey Curve.P256 ∈ (generateSelfSignedCert happyWorld).calls ∧
      happyWorld.generateKey Curve.P256 = .ok priv ∧
      Call.createCertificate template template priv.publicKey priv
        ∈ (generateSelfSignedCert happyWorld).calls ∧
      (∀ t p pub k,
        Call.createCertificate t p pub k ∈ (generateSelfSignedCert happyWorld).calls →
        t = template ∧ p = template ∧ pub = priv.publicKey ∧ k = priv) ∧
      happyWorld.createCertificate template template priv.publicKey priv = .ok der ∧
      happyWorld.marshalECPrivateKey priv = .ok privBytes ∧
      (generateSelfSignedCert happyWorld).certPem
        = happyWorld.encodeToMemory ⟨"CERTIFICATE", [], der⟩ ∧
      (generateSelfSignedCert happyWorld).keyPem
        = happyWorld.encodeToMemory ⟨"EC PRIVATE KEY", [], privBytes⟩ :=
  ⟨by set_option maxRecDepth 8000 in decide,
    selfSigned_matching_pair happyWorld (by set_option maxRecDepth 8000 in decide)⟩

/-- C7: `generateSelfSignedCert` is single-shot and all-or-nothing.  The fallible
steps it attempts are an initial segment of key generation, serial number,
certificate creation, key marshalling (so each at most once, in that order);
an attempted call that fails is the last call of the run, and the run returns a
nil certificate, a nil key and the error of that call; an error returned is the
error of an attempted call; the error is nil exactly when all four steps were
attempted and none failed, and then the run made exactly the seven library
calls of the success path, `certPem` is the non-nil PEM encoding of the
CERTIFICATE block over the DER bytes that certificate creation returned in this
run, and `keyPem` is the non-nil PEM encoding of the EC PRIVATE KEY block over
the bytes that marshalling the generated key returned in this run. -/
theorem generateSelfSignedCert_single_shot (w : World) :
    (∃ k, (generateSelfSignedCert w).calls.filterMap Call.step = provisioningSteps.take k) ∧
    (∀ c ∈ (generateSelfSignedCert w).calls, ∀ e, w.errorOf c = some e →
      (generateSelfSignedCert w).certPem = none ∧ (generateSelfSignedCert w).keyPem = none ∧
      (generateSelfSignedCert w).err = some e ∧
      (generateSelfSignedCert w).calls.getLast? = some c) ∧
    (∀ e, (generateSelfSignedCert w).err = some e →
      ∃ c, (generateSelfSignedCert w).calls.getLast? = some c ∧ w.errorOf c = some e) ∧
    ((generateSelfSignedCert w).err = none ↔
      (generateSelfSignedCert w).calls.filterMap Call.step = provisioningSteps ∧
      ∀ c ∈ (generateSelfSignedCert w).calls, w.errorOf c = none) ∧
    ((generateSelfSignedCert w).err = none →
      ∃ (priv : PrivateKey) (serial : { n : Int // 0 ≤ n ∧ n < bigLsh 1 128 })
          (der privBytes : Bytes),
        w.generateKey Curve.P256 = .ok priv ∧
        w.randInt (bigLsh 1 128) = .ok serial ∧
        w.createCertificate (certTemplate serial.val w.now (w.now.add certValidity))
          (certTemplate serial.val w.now (w.now.add certValidity)) priv.publicKey priv
          = .ok der ∧
        w.marshalECPrivateKey priv = .ok privBytes ∧
        (generateSelfSignedCert w).calls =
          [Call.generateKey Curve.P256, Call.now, Call.randInt (bigLsh 1 128),
            Call.createCertificate (certTemplate serial.val w.now (w.now.add certValidity))
              (certTemplate serial.val w.now (w.now.add certValidity)) priv.publicKey priv,
            Call.encodeToMemory ⟨"CERTIFICATE", [], der⟩, Call.marshalECPrivateKey priv,
            Call.encodeToMemory ⟨"EC PRIVATE KEY", [], privBytes⟩] ∧
        (generateSelfSignedCert w).certPem = w.encodeToMemory ⟨"CERTIFICATE", [], der⟩ ∧
        (generateSelfSignedCert w).keyPem = w.encodeToMemory ⟨"EC PRIVATE KEY", [], privBytes⟩ ∧
        (generateSelfSignedCert w).certPem ≠ none ∧ (generateSelfSignedCert w).keyPem ≠ none) := by
  have hr := generateSelfSignedCert_run w
  generalize generateSelfSignedCert w = r at hr
  cases hr with
  | keyGenerationFails e hk =>
    refine ⟨⟨1, by simp [Call.step, provisioningSteps]⟩, ?_, ?_, ?_, by simp⟩
    · simp [World.errorOf, hk]
    · simp [World.errorOf, hk]
    · simp [World.errorOf, hk]
  | serialNumberFails priv e hk hs =>
    refine ⟨⟨2, by simp [Call.step, provisioningSteps]⟩, ?_, ?_, ?_, by simp⟩
    · simp [World.errorOf, hk, hs]
    · simp [World.errorOf, hk, hs]
    · simp [World.errorOf, hk, hs]
  | certificateCreationFails priv serial e hk hs hc =>
    refine ⟨⟨3, by simp [Call.step, provisioningSteps]⟩, ?_, ?_, ?_, by simp⟩
    · simp [World.errorOf, hk, hs, hc]
    · simp [World.errorOf, hk, hs, hc]
    · simp [World.errorOf, hk, hs, hc]
  | keyMarshallingFails priv serial der e hk hs hc hm =>
    refine ⟨⟨4, by simp [Call.step, provisioningSteps]⟩, ?_, ?_, ?_, by simp⟩
    · simp [World.errorOf, hk, hs, hc, hm]
    · simp [World.errorOf, hk, hs, hc, hm]
    · simp [World.errorOf, hk, hs, hc, hm]
  | success priv serial der privBytes hk hs hc hm =>
    refine ⟨⟨4, by simp [Call.step, provisioningSteps]⟩, ?_, ?_, ?_, ?_⟩
    · simp [World.errorOf, hk, hs, hc, hm]
    · simp
    · simp [World.errorOf, hk, hs, hc, hm, Call.step, provisioningSteps]
    · intro _
      exact ⟨priv, serial, der, privBytes, hk, hs, hc, hm, rfl, rfl, rfl,
        w.encodeToMemory_noHeaders _ rfl, w.encodeToMemory_noHeaders _ rfl⟩

/-- Witness of C7: when key generation fails, the run stops after that one call
with nil, nil and its error; when every call succeeds, the error is nil, the
seven calls of the success path are made, and the two results are the non-nil
PEM encodings of the DER bytes and of the marshalled key of that run. -/
theorem generateSelfSignedCert_single_shot_witness :
    ((generateSelfSignedCert keyGenFailsWorld).certPem = none ∧
      (generateSelfSignedCert keyGenFailsWorld).keyPem = none ∧
      (generateSelfSignedCert keyGenFailsWorld).err = some errUnexpectedEOF ∧
      (generateSelfSignedCert keyGenFailsWorld).calls.getLast?
        = some (Call.generateKey Curve.P256)) ∧
    (generateSelfSignedCert happyWorld).err = none ∧
    ∃ (priv : PrivateKey) (serial : { n : Int // 0 ≤ n ∧ n < bigLsh 1 128 })
        (der privBytes : Bytes),
      happyWorld.generateKey Curve.P256 = .ok priv ∧
      happyWorld.randInt (bigLsh 1 128) = .ok serial ∧
      happyWorld.createCertificate
        (certTemplate serial.val happyWorld.now (happyWorld.now.add certValidity))
        (certTemplate serial.val happyWorld.now (happyWorld.now.add certValidity))
        priv.publicKey priv = .ok der ∧
      happyWorld.marshalECPrivateKey priv = .ok privBytes ∧
      (generateSelfSignedCert happyWorld).calls =
        [Call.generateKey Curve.P256, Call.now, Call.randInt (bigLsh 1 128),
          Call.createCertificate
            (certTemplate serial.val happyWorld.now (happyWorld.now.add certValidity))
            (certTemplate serial.val happyWorld.now (happyWorld.now.add certValidity))
            priv.publicKey priv,
          Call.encodeToMemory ⟨"CERTIFICATE", [], der⟩, Call.marshalECPrivateKey priv,
          Call.encodeToMemory ⟨"EC PRIVATE KEY", [], privBytes⟩] ∧
      (generateSelfSignedCert happyWorld).certPem
        = happyWorld.encodeToMemory ⟨"CERTIFICATE", [], der⟩ ∧
      (generateSelfSignedCert happyWorld).keyPem
        = happyWorld.encodeToMemory ⟨"EC PRIVATE KEY", [], privBytes⟩ ∧
      (generateSelfSignedCert happyWorld).certPem ≠ none ∧
      (generateSelfSignedCert happyWorld).keyPem ≠ none :=
  ⟨(generateSelfSignedCert_single_shot keyGenFailsWorld).2.1 (Call.generateKey Curve.P256)
      (by decide) errUnexpectedEOF (by decide),
    by set_option maxRecDepth 8000 in decide,
    (generateSelfSignedCert_single_shot happyWorld).2.2.2.2
      (by set_option maxRecDepth 8000 in decide)⟩

/-! ## `generateTLSConfig` -/

theorem generateTLSConfig_of_certError (w : World) (e : GoError)
    (h : (generateSelfSignedCert w).err = some e) :
    generateTLSConfig w = ⟨none, some e, (generateSelfSignedCert w).calls⟩ := by
  simp only [generateTLSConfig, h]

theorem generateTLSConfig_of_loadError (w : World) (e : GoError)
    (h : (generateSelfSignedCert w).err = none)
    (hx : w.x509KeyPair (generateSelfSignedCert w).certPem (generateSelfSignedCert w).keyPem
      = .error e) :
    generateTLSConfig w = ⟨none, some e, (generateSelfSignedCert w).calls ++
      [Call.x509KeyPair (generateSelfSignedCert w).certPem (generateSelfSignedCert w).keyPem]⟩ := by
  simp only [generateTLSConfig, h, hx]

theorem generateTLSConfig_of_loaded (w : World) (cert : TlsCertificate)
    (h : (generateSelfSignedCert w).err = none)
    (hx : w.x509KeyPair (generateSelfSignedCert w).certPem (generateSelfSignedCert w).keyPem
      = .ok cert) :
    generateTLSConfig w =
      ⟨some { TlsConfig.zero with certificates := [cert], minVersion := VersionTLS13 }, none,
        (generateSelfSignedCert w).calls ++
        [Call.x509KeyPair (generateSelfSignedCert w).certPem
          (generateSelfSignedCert w).keyPem]⟩ := by
  simp only [generateTLSConfig, h, hx]

theorem x509KeyPair_not_called (w : World) (c k : ByteSlice) :
    Call.x509KeyPair c k ∉ (generateSelfSignedCert w).calls := by
  have hr := generateSelfSignedCert_run w
  generalize generateSelfSignedCert w = r at hr
  cases hr <;> simp

/-- C2: when `generateTLSConfig` succeeds, the configuration returned has
MinVersion equal to TLS 1.3, which is the highest version that `crypto/tls`
defines, and its Certificates list is the single key pair that
`tls.X509KeyPair` loaded from the two PEM results of the run of
`generateSelfSignedCert` made in the same call. -/
theorem tlsConfig_minVersion_certificates (w : World)
    (h : (generateTLSConfig w).err = none) :
    ∃ (cfg : TlsConfig) (cert : TlsCertificate),
      (generateTLSConfig w).config = some cfg ∧
      cfg.minVersion = VersionTLS13 ∧
      (∀ v ∈ tlsVersions, v ≤ cfg.minVersion) ∧
      cfg.certificates = [cert] ∧
      (generateSelfSignedCert w).err = none ∧
      w.x509KeyPair (generateSelfSignedCert w).certPem (generateSelfSignedCert w).keyPem
        = .ok cert ∧
      (generateTLSConfig w).calls = (generateSelfSignedCert w).calls ++
        [Call.x509KeyPair (generateSelfSignedCert w).certPem
          (generateSelfSignedCert w).keyPem] := by
  cases hg : (generateSelfSignedCert w).err with
  | some e =>
    rw [generateTLSConfig_of_certError w e hg] at h
    simp at h
  | none =>
    cases hx : w.x509KeyPair (generateSelfSignedCert w).certPem
        (generateSelfSignedCert w).keyPem with
    | error e =>
      rw [generateTLSConfig_of_loadError w e hg hx] at h
      simp at h
    | ok cert =>
      rw [generateTLSConfig_of_loaded w cert hg hx]
      exact ⟨_, cert, rfl, rfl, (show ∀ v ∈ tlsVersions, v ≤ VersionTLS13 by decide),
        rfl, rfl, rfl, rfl⟩

/-- Witness of C2: the library where every call succeeds. -/
theorem tlsConfig_minVersion_certificates_witness :
    (generateTLSConfig happyWorld).err = none ∧
    ∃ (cfg : TlsConfig) (cert : TlsCertificate),
      (generateTLSConfig happyWorld).config = some cfg ∧
      cfg.minVersion = VersionTLS13 ∧
      (∀ v ∈ tlsVersions, v ≤ cfg.minVersion) ∧
      cfg.certificates = [cert] ∧
      (generateSelfSignedCert happyWorld).err = none ∧
      happyWorld.x509KeyPair (generateSelfSignedCert happyWorld).certPem
        (generateSelfSignedCert happyWorld).keyPem = .ok cert ∧
      (generateTLSConfig happyWorld).calls = (generateSelfSignedCert happyWorld).calls ++
        [Call.x509KeyPair (generateSelfSignedCert happyWorld).certPem
          (generateSelfSignedCert happyWorld).keyPem] :=
  ⟨by set_option maxRecDepth 8000 in decide,
    tlsConfig_minVersion_certificates happyWorld (by set_option maxRecDepth 8000 in decide)⟩

/-- C9: `generateTLSConfig` returns a nil configuration exactly when it returns
a non-nil error.  If `generateSelfSignedCert` fails with `e`, the result is a nil
configuration and `e`, and no call of `tls.X509KeyPair` is made; if it succeeds
and loading the PEM pair fails with `e`, the result is a nil configuration and
`e`; if loading succeeds, the configuration is non-nil and the error is nil. -/
theorem generateTLSConfig_config_or_error (w : World) :
    ((generateTLSConfig w).config = none ↔ (generateTLSConfig w).err ≠ none) ∧
    (∀ e, (generateSelfSignedCert w).err = some e →
      (generateTLSConfig w).config = none ∧ (generateTLSConfig w).err = some e ∧
      ∀ c k, Call.x509KeyPair c k ∉ (generateTLSConfig w).calls) ∧
    ((generateSelfSignedCert w).err = none →
      (∀ e, w.x509KeyPair (generateSelfSignedCert w).certPem
          (generateSelfSignedCert w).keyPem = .error e →
        (generateTLSConfig w).config = none ∧ (generateTLSConfig w).err = some e) ∧
      (∀ cert, w.x509KeyPair (generateSelfSignedCert w).certPem
          (generateSelfSignedCert w).keyPem = .ok cert →
        (generateTLSConfig w).config ≠ none ∧ (generateTLSConfig w).err = none)) := by
  refine ⟨?_, ?_, ?_⟩
  · cases hg : (generateSelfSignedCert w).err with
    | some e => simp [generateTLSConfig_of_certError w e hg]
    | none =>
      cases hx : w.x509KeyPair (generateSelfSignedCert w).certPem
          (generateSelfSignedCert w).keyPem with
      | error e => simp [generateTLSConfig_of_loadError w e hg hx]
      | ok cert => simp [generateTLSConfig_of_loaded w cert hg hx]
  · intro e hg
    rw [generateTLSConfig_of_certError w e hg]
    exact ⟨rfl, rfl, fun c k => x509KeyPair_not_called w c k⟩
  · intro hg
    constructor
    · intro e hx
      rw [generateTLSConfig_of_loadError w e hg hx]
      exact ⟨rfl, rfl⟩
    · intro cert hx
      rw [generateTLSConfig_of_loaded w cert hg hx]
      exact ⟨by simp, rfl⟩

/-- Witness of C9: a failure of key generation and a failure of key-pair loading
both give a nil configuration and the library's error; when every call
succeeds the configuration is non-nil and the error is nil. -/
theorem generateTLSConfig_config_or_error_witness :
    ((generateTLSConfig keyGenFailsWorld).config = none ∧
      (generateTLSConfig keyGenFailsWorld).err = some errUnexpectedEOF ∧
      ∀ c k, Call.x509KeyPair c k ∉ (generateTLSConfig keyGenFailsWorld).calls) ∧
    ((generateTLSConfig keyPairFailsWorld).config = none ∧
      (generateTLSConfig keyPairFailsWorld).err = some errNoPemData) ∧
    ((generateTLSConfig happyWorld).config ≠ none ∧
      (generateTLSConfig happyWorld).err = none) :=
  ⟨(generateTLSConfig_config_or_error keyGenFailsWorld).2.1 errUnexpectedEOF (by decide),
    ((generateTLSConfig_config_or_error keyPairFailsWorld).2.2
      (by set_option maxRecDepth 8000 in decide)).1 errNoPemData rfl,
    ((generateTLSConfig_config_or_error happyWorld).2.2
      (by set_option maxRecDepth 8000 in decide)).2 ⟨[[48, 0]], sampleKey⟩
      (by set_option maxRecDepth 8000 in rfl)⟩

/-- C10: a configuration returned by `generateTLSConfig` is the zero value of
`tls.Config` with Certificates and MinVersion set: InsecureSkipVerify is
false, ClientAuth is NoClientCert, MaxVersion is 0, RootCAs is nil, ServerName
is empty, and so is every other field. -/
theorem tlsConfig_other_fields_zero (w : World) (cfg : TlsConfig)
    (h : (generateTLSConfig w).config = some cfg) :
    cfg = { TlsConfig.zero with
      certificates := cfg.certificates, minVersion := cfg.minVersion } ∧
    cfg.insecureSkipVerify = false ∧
    cfg.clientAuth = NoClientCert ∧
    cfg.maxVersion = 0 ∧
    cfg.rootCAs = none ∧
    cfg.serverName = "" := by
  cases hg : (generateSelfSignedCert w).err with
  | some e =>
    rw [generateTLSConfig_of_certError w e hg] at h
    simp at h
  | none =>
    cases hx : w.x509KeyPair (generateSelfSignedCert w).certPem
        (generateSelfSignedCert w).keyPem with
    | error e =>
      rw [generateTLSConfig_of_loadError w e hg hx] at h
      simp at h
    | ok cert =>
      rw [generateTLSConfig_of_loaded w cert hg hx] at h
      simp only [Option.some.injEq] at h
      subst h
      exact ⟨rfl, rfl, rfl, rfl, rfl, rfl⟩

/-- Witness of C10: the configuration built in the library where every call
succeeds. -/
theorem tlsConfig_other_fields_zero_witness :
    (generateTLSConfig happyWorld).config = some sampleConfig ∧
    sampleConfig = { TlsConfig.zero with
      certificates := sampleConfig.certificates, minVersion := sampleConfig.minVersion } ∧
    sampleConfig.insecureSkipVerify = false ∧
    sampleConfig.clientAuth = NoClientCert ∧
    sampleConfig.maxVersion = 0 ∧
    sampleConfig.rootCAs = none ∧
    sampleConfig.serverName = "" :=
  ⟨by set_option maxRecDepth 8000 in decide,
    tlsConfig_other_fields_zero happyWorld sampleConfig
      (by set_option maxRecDepth 8000 in decide)⟩


theorem failed_call_is_last (w : World) :
    ∀ c ∈ (generateSelfSignedCert w).calls, ∀ e, w.errorOf c = some e →
      (generateSelfSignedCert w).err = some e ∧
      (generateSelfSignedCert w).calls.getLast? = some c := by
  have hr := generateSelfSignedCert_run w
  generalize generateSelfSignedCert w = r at hr
  cases hr with
  | keyGenerationFails e hk => simp [World.errorOf, hk]
  | serialNumberFails priv e hk hs => simp [World.errorOf, hk, hs]
  | certificateCreationFails priv serial e hk hs hc => simp [World.errorOf, hk, hs, hc]
  | keyMarshallingFails priv serial der e hk hs hc hm =>
    simp [World.errorOf, hk, hs, hc, hm]
  | success priv serial der privBytes hk hs hc hm => simp [World.errorOf, hk, hs, hc, hm]

theorem error_is_of_last_call (w : World) :
    ∀ e, (generateSelfSignedCert w).err = some e →
      ∃ c, (generateSelfSignedCert w).calls.getLast? = some c ∧ c.step ≠ none ∧
        w.errorOf c = some e := by
  have hr := generateSelfSignedCert_run w
  generalize generateSelfSignedCert w = r at hr
  cases hr with
  | keyGenerationFails e hk => simp [World.errorOf, hk, Call.step]
  | serialNumberFails priv e hk hs => simp [World.errorOf, hk, hs, Call.step]
  | certificateCreationFails priv serial e hk hs hc =>
    simp [World.errorOf, hk, hs, hc, Call.step]
  | keyMarshallingFails priv serial der e hk hs hc hm =>
    simp [World.errorOf, hk, hs, hc, hm, Call.step]
  | success priv serial der privBytes hk hs hc hm => simp

/-- C6 (as stated, refuted): when the random source fails during key
generation with the library error `unexpected EOF`, both functions return that
very value, of the library's type; and since a failing library call can return
any error value, no classification of error values holds of every provisioning
failure and fails of some other error. -/
theorem provisioning_error_not_distinct :
    (generateSelfSignedCert keyGenFailsWorld).err = some errUnexpectedEOF ∧
    (generateTLSConfig keyGenFailsWorld).err = some errUnexpectedEOF ∧
    errUnexpectedEOF.dynType = "*errors.errorString" ∧
    ¬ ∃ isProvisioningError : GoError → Bool,
      (∀ w e, (generateTLSConfig w).err = some e → isProvisioningError e = true) ∧
      ∃ e, isProvisioningError e = false := by
  refine ⟨by decide, by decide, rfl, ?_⟩
  rintro ⟨f, hall, e, he⟩
  have hrun : (generateTLSConfig { happyWorld with generateKey := fun _ => .error e }).err
      = some e := by
    simp [generateTLSConfig, generateSelfSignedCert]
  rw [hall _ e hrun] at he
  exact Bool.noConfusion he

/-- C6 (amended): a failure of key generation, serial-number generation,
certificate creation, private-key marshalling or key-pair loading is surfaced
unchanged: whenever an attempted library call fails with `e`, both the
configuration is nil and the error returned is `e` itself, that call being the
last of the run; and every error returned is the error of the last call made.
The same holds of `generateSelfSignedCert`. -/
theorem provisioning_error_passed_through (w : World) :
    (∀ c ∈ (generateTLSConfig w).calls, ∀ e, w.errorOf c = some e →
      (generateTLSConfig w).config = none ∧ (generateTLSConfig w).err = some e ∧
      (generateTLSConfig w).calls.getLast? = some c) ∧
    (∀ e, (generateTLSConfig w).err = some e →
      ∃ c, (generateTLSConfig w).calls.getLast? = some c ∧ c.step ≠ none ∧
        w.errorOf c = some e) ∧
    (∀ c ∈ (generateSelfSignedCert w).calls, ∀ e, w.errorOf c = some e →
      (generateSelfSignedCert w).err = some e ∧
      (generateSelfSignedCert w).calls.getLast? = some c) ∧
    (∀ e, (generateSelfSignedCert w).err = some e →
      ∃ c, (generateSelfSignedCert w).calls.getLast? = some c ∧ c.step ≠ none ∧
        w.errorOf c = some e) := by
  refine ⟨?_, ?_, failed_call_is_last w, error_is_of_last_call w⟩
  · intro c hc e he
    cases hg : (generateSelfSignedCert w).err with
    | some e0 =>
      rw [generateTLSConfig_of_certError w e0 hg] at hc ⊢
      obtain ⟨h1, h2⟩ := failed_call_is_last w c hc e he
      rw [hg] at h1
      exact ⟨rfl, h1, h2⟩
    | none =>
      cases hx : w.x509KeyPair (generateSelfSignedCert w).certPem
          (generateSelfSignedCert w).keyPem with
      | error e1 =>
        rw [generateTLSConfig_of_loadError w e1 hg hx] at hc ⊢
        rcases List.mem_append.mp hc with hc | hc
        · have h1 := (failed_call_is_last w c hc e he).1
          rw [hg] at h1
          exact absurd h1 (by simp)
        · rw [List.mem_singleton] at hc
          subst hc
          simp only [World.errorOf, hx, Option.some.injEq] at he
          subst he
          exact ⟨rfl, rfl, by simp⟩
      | ok cert =>
        rw [generateTLSConfig_of_loaded w cert hg hx] at hc
        rcases List.mem_append.mp hc with hc | hc
        · have h1 := (failed_call_is_last w c hc e he).1
          rw [hg] at h1
          exact absurd h1 (by simp)
        · rw [List.mem_singleton] at hc
          subst hc
          simp [World.errorOf, hx] at he
  · intro e he
    cases hg : (generateSelfSignedCert w).err with
    | some e0 =>
      rw [generateTLSConfig_of_certError w e0 hg] at he ⊢
      simp only [Option.some.injEq] at he
      subst he
      exact error_is_of_last_call w e0 hg
    | none =>
      cases hx : w.x509KeyPair (generateSelfSignedCert w).certPem
          (generateSelfSignedCert w).keyPem with
      | error e1 =>
        rw [generateTLSConfig_of_loadError w e1 hg hx] at he ⊢
        simp only [Option.some.injEq] at he
        subst he
        exact ⟨Call.x509KeyPair (generateSelfSignedCert w).certPem
          (generateSelfSignedCert w).keyPem, by simp, by simp [Call.step],
          by simp [World.errorOf, hx]⟩
      | ok cert =>
        rw [generateTLSConfig_of_loaded w cert hg hx] at he
        simp at he

/-- Witness of C6 (amended): the error of a failed key-pair loading is returned
as it is, with a nil configuration, that call being the last of the run. -/
theorem provisioning_error_passed_through_witness :
    (generateTLSConfig keyPairFailsWorld).config = none ∧
    (generateTLSConfig keyPairFailsWorld).err = some errNoPemData ∧
    (generateTLSConfig keyPairFailsWorld).calls.getLast?
      = some (Call.x509KeyPair (some [48, 0]) (some [48, 1])) :=
  (provisioning_error_passed_through keyPairFailsWorld).1
    (Call.x509KeyPair (some [48, 0]) (some [48, 1]))
    (by set_option maxRecDepth 8000 in decide) errNoPemData
    (by set_option maxRecDepth 8000 in decide)

/-! ## The frame codec: round trip -/

theorem take_append_of_length {α : Type} (xs ys : List α) (n : Nat) (h : xs.length = n) :
    (xs ++ ys).take n = xs := by
  subst h
  simp

theorem drop_append_of_length {α : Type} (xs ys : List α) (n : Nat) (h : xs.length = n) :
    (xs ++ ys).drop n = ys := by
  subst h
  simp

theorem encodeLen_length (width n : Nat) : (encodeLen width n).length = width := by
  induction width generalizing n with
  | zero => rfl
  | succ k ih => simp [encodeLen, ih]

theorem decodeLen_append_singleton (field : Bytes) (b : Byte) :
    decodeLen (field ++ [b]) = decodeLen field * 256 + b.val := by
  simp [decodeLen, List.foldl_append]

theorem decodeLen_encodeLen (width n : Nat) (h : n < 256 ^ width) :
    decodeLen (encodeLen width n) = n := by
  induction width generalizing n with
  | zero =>
    simp at h
    subst h
    rfl
  | succ k ih =>
    have hdiv : n / 256 < 256 ^ k := by
      rw [Nat.div_lt_iff_lt_mul (by decide)]
      rw [pow_succ] at h
      exact h
    rw [encodeLen, decodeLen_append_singleton, ih _ hdiv]
    exact Nat.div_add_mod' n 256

theorem decodeField_encodeField (c : Codec) (f rest : Bytes) (h : f.length < 256 ^ c.width) :
    decodeField c (encodeField c f ++ rest) = some (f, rest) := by
  have hlen : (encodeLen c.width f.length).length = c.width := encodeLen_length _ _
  unfold decodeField encodeField
  rw [List.append_assoc]
  have htake : List.take c.width (encodeLen c.width f.length ++ (f ++ rest))
      = encodeLen c.width f.length := by
    exact take_append_of_length _ _ _ hlen
  have hdrop : List.drop c.width (encodeLen c.width f.length ++ (f ++ rest)) = f ++ rest :=
    drop_append_of_length _ _ _ hlen
  have h1 : ¬ (encodeLen c.width f.length ++ (f ++ rest)).length < c.width := by
    simp [hlen]
  rw [if_neg h1]
  simp only [htake, hdrop, decodeLen_encodeLen _ _ h]
  have h2 : ¬ (f ++ rest).length < f.length := by simp
  rw [if_neg h2]
  simp

theorem encodeBody_length (c : Codec) (m : Message) :
    (encodeBody c m).length
      = 3 * c.width + (m.id.length + m.secret.length + m.payload.length) := by
  simp [encodeBody, encodeField, encodeLen_length]
  omega

theorem decodeBody_encodeBody (c : Codec) (m : Message)
    (h : (encodeBody c m).length < 256 ^ c.width) :
    decodeBody c (encodeBody c m) = some m := by
  rw [encodeBody_length] at h
  unfold decodeBody encodeBody
  rw [decodeField_encodeField c m.id _ (by omega)]
  dsimp only
  rw [decodeField_encodeField c m.secret _ (by omega)]
  dsimp only
  have hp := decodeField_encodeField c m.payload [] (by omega)
  rw [List.append_nil] at hp
  rw [hp]
  simp

theorem decode_encode_append (c : Codec) (m : Message) (rest : Bytes)
    (h : (encodeBody c m).length ≤ c.maxFrame) :
    decode c (encode c m ++ rest) = DecodeResult.message m (encode c m).length := by
  have hfit : (encodeBody c m).length < 256 ^ c.width := lt_of_le_of_lt h c.maxFrame_fits
  have hlen : (encodeLen c.width (encodeBody c m).length).length = c.width :=
    encodeLen_length _ _
  have htake : List.take c.width (encode c m ++ rest)
      = encodeLen c.width (encodeBody c m).length := by
    unfold encode
    rw [List.append_assoc]
    exact take_append_of_length _ _ _ hlen
  have hdrop : List.drop c.width (encode c m ++ rest) = encodeBody c m ++ rest := by
    unfold encode
    rw [List.append_assoc]
    exact drop_append_of_length _ _ _ hlen
  have htotal : (encode c m).length = c.width + (encodeBody c m).length := by
    simp [encode, hlen]
  unfold decode
  have h1 : ¬ (encode c m ++ rest).length < c.width := by
    simp [htotal]
    omega
  rw [if_neg h1]
  simp only [htake, hdrop, decodeLen_encodeLen _ _ hfit]
  rw [if_neg (not_lt.mpr h)]
  have h2 : ¬ (encodeBody c m ++ rest).length < (encodeBody c m).length := by simp
  rw [if_neg h2, List.take_left, decodeBody_encodeBody c m hfit, htotal]

/-- C8: for every message whose frame is within the codec's size ceiling
(empty fields and a payload that fills the frame up to the ceiling included),
decoding the frame produced by encoding the message yields exactly that
message, all three fields preserved, and consumes the whole frame. -/
theorem decode_encode (c : Codec) (m : Message)
    (h : (encodeBody c m).length ≤ c.maxFrame) :
    decode c (encode c m) = DecodeResult.message m (encode c m).length := by
  have := decode_encode_append c m [] h
  rwa [List.append_nil] at this

/-- Witness of C8: a message with empty `id` and `secret` and a payload that
fills the frame exactly up to the ceiling. -/
theorem decode_encode_witness :
    (encodeBody smallCodec fullMessage).length ≤ smallCodec.maxFrame ∧
    (encodeBody smallCodec fullMessage).length = smallCodec.maxFrame ∧
    decode smallCodec (encode smallCodec fullMessage)
      = DecodeResult.message fullMessage (encode smallCodec fullMessage).length :=
  ⟨by decide, by decide, decode_encode smallCodec fullMessage (by decide)⟩

end Netchan
